import Mathlib

/-!
Shallow embedding of lib/galaxy/managers/hdas.py: the HDAManager
(security checks, create, copy, purge, state queries, text_data),
the HDASerializer key table and the HDADeserializer key table.

Python objects become Lean structures; ORM/session side effects become
explicit state passing over a Sess value carrying an event log, a fresh-id
counter and the per-user disk usage map; fallible code returns Except.
Collaborator code that lives outside this file of the repository
(user manager, parent manager classes, datatype registry, filesystem)
is modelled from the spec in clearly marked definitions.
-/

namespace GalaxyHdas

/-- Dataset / job states used by the code: model.Dataset.states.UPLOAD,
model.Job.states.ERROR, model.Job.states.OK, plus representative other
states (queued, running, new) so that the not-ERROR-and-not-OK branch of
data_conversion_status is inhabited. -/
inductive DState where
  | ok
  | error
  | upload
  | queued
  | running
  | new
deriving DecidableEq, Repr

/-- Conversion messages model.HistoryDatasetAssociation.conversion_messages
returned by data_conversion_status. -/
inductive ConversionMessage where
  | NO_DATA
  | ERROR
  | PENDING
deriving DecidableEq, Repr

/-- A user row: id, admin flag and nothing more is needed by this file. -/
structure User where
  id : Nat
  is_admin : Bool
deriving DecidableEq, Repr

/-- A history row: its id, its owning user (None for anonymous histories)
and the ids of the datasets it holds plus the hid counter used by
add_dataset. -/
structure History where
  id : Nat
  user : Option User
  datasets : List Nat
  hid_counter : Nat
deriving DecidableEq, Repr

/-- A dataset row: the state and file name live on the dataset and are
shared by every HDA associated with it. -/
structure Dataset where
  id : Nat
  state : DState
  purged : Bool
  file_name : String
deriving DecidableEq, Repr

/-- An HDA row (model.HistoryDatasetAssociation) with the fields this file
reads or writes.  history is None until the HDA is attached to a history. -/
structure HDA where
  id : Nat
  name : String
  info : String
  blurb : String
  peek : String
  tool_version : String
  extension : String
  dbkey : String
  metadata : String
  visible : Bool
  deleted : Bool
  purged : Bool
  size : Nat
  parent_id : Option Nat
  hid : Option Nat
  copied_from_history_dataset_association : Option Nat
  dataset : Dataset
  history : Option History
deriving DecidableEq, Repr

/-- hda.state delegates to the underlying dataset state. -/
def HDA.state (hda : HDA) : DState :=
  hda.dataset.state

/-- hda.file_name delegates to the underlying dataset file name. -/
def HDA.file_name (hda : HDA) : String :=
  hda.dataset.file_name

/-- The transaction object: the current user (None when anonymous) and the
history returned by trans.get_history(). -/
structure Trans where
  user : Option User
  currentHistory : History
deriving DecidableEq, Repr

/-- trans.get_history() -/
def Trans.get_history (trans : Trans) : History :=
  trans.currentHistory

/-- Session / ORM side effects recorded while an operation runs. -/
inductive Event where
  | sessionAdd (hdaId : Nat)
  | flush
  | metadataSet (hdaId : Nat)
  | addToHistory (historyId : Nat) (hdaId : Nat)
  | parentCreate (create_dataset : Bool)
deriving DecidableEq, Repr

/-- The mutable world threaded through the manager operations: fresh id
counters, the chronological event log and the per-user total_disk_usage
map (user id to usage). -/
structure Sess where
  nextId : Nat
  nextDatasetId : Nat
  log : List Event
  diskUsage : Nat → Int

/-- Append one event to the log. -/
def Sess.push (s : Sess) (e : Event) : Sess :=
  { s with log := s.log ++ [e] }

/-- The events an operation produced on top of the starting log. -/
def newEvents (s sFinal : Sess) : List Event :=
  sFinal.log.drop s.log.length

/-- Collaborators owned by other modules of the application, modelled from
the spec: the inherited accessibility check of the parent
DatasetAssociationManager, hda.quota_amount (a function of the dataset and
the user), the datatype registry (is the extension a Text datatype, is its
peek safe to copy, how a peek is recomputed from an HDA), and the
filesystem (existence and size of a file). -/
structure Env where
  inheritedAccessible : Trans → HDA → Option User → Bool
  quotaAmount : Nat → Nat → Int
  datatypeIsText : String → Bool
  copySafePeek : String → Bool
  computePeek : HDA → String
  fileExists : String → Bool
  fileSize : String → Nat

/-- Modelled from the spec: users.UserManager.is_admin, true exactly for a
logged-in user flagged as an administrator. -/
def UserManager.is_admin (_trans : Trans) (user : Option User) : Bool :=
  match user with
  | some u => u.is_admin
  | none => false

/-- Modelled from the spec: users.UserManager.is_anonymous, true exactly
when there is no logged-in user. -/
def UserManager.is_anonymous (user : Option User) : Bool :=
  user == none

/-- HDAManager.is_owner: admin users own everything; an anonymous user owns
the HDA when its history is the current session history; otherwise
ownership is history.user == user.  The history attribute access of the
source is rendered totally: an HDA without a history has history.user
rendered as None. -/
def HDAManager.is_owner (trans : Trans) (hda : HDA) (user : Option User) : Bool :=
  let history := hda.history
  if UserManager.is_admin trans user then
    true
  else if UserManager.is_anonymous user && (history == some trans.get_history) then
    true
  else
    (history.bind History.user) == user

/-- HDAManager.is_accessible: owners always may access; otherwise defer to
the inherited check. -/
def HDAManager.is_accessible (env : Env) (trans : Trans) (hda : HDA) (user : Option User) : Bool :=
  if HDAManager.is_owner trans hda user then
    true
  else
    env.inheritedAccessible trans hda user

/-- Modelled from the spec: model.History.add_dataset attaches the HDA to
the history, recording it in the history and updating the hid to the next
available one. -/
def History.add_dataset (h : History) (hda : HDA) : History × HDA :=
  let h2 : History := { h with datasets := h.datasets ++ [hda.id], hid_counter := h.hid_counter + 1 }
  (h2, { hda with history := some h2, hid := some h.hid_counter })

/-- Modelled from the spec: the parent DatasetAssociationManager.create
builds a new model instance wired to the given history and dataset,
creating a fresh dataset when create_dataset is set, registers it with the
passed session and flushes when asked; it performs no other side effect. -/
def parentCreate (s : Sess) (history : Option History) (dataset : Option Dataset)
    (flush : Bool) (create_dataset : Bool) : HDA × Sess :=
  let ds : Dataset :=
    match dataset with
    | some d => d
    | none => { id := s.nextDatasetId, state := DState.new, purged := false, file_name := "" }
  let hda : HDA :=
    { id := s.nextId, name := "", info := "", blurb := "", peek := "",
      tool_version := "", extension := "", dbkey := "?", metadata := "",
      visible := true, deleted := false, purged := false, size := 0,
      parent_id := none, hid := none,
      copied_from_history_dataset_association := none,
      dataset := ds, history := history }
  let s1 := { s with nextId := s.nextId + 1, nextDatasetId := s.nextDatasetId + 1 }
  let s2 := (s1.push (Event.parentCreate create_dataset)).push (Event.sessionAdd hda.id)
  let s3 := if flush then s2.push Event.flush else s2
  (hda, s3)

/-- HDAManager.create: when no dataset is passed, request dataset creation
from the parent create; attach the new HDA to the history when one is
given; add it to the session and flush when asked.  Returns the new HDA,
the updated history and the final session state. -/
def HDAManager.create (s : Sess) (_trans : Trans) (history : Option History)
    (dataset : Option Dataset) (flush : Bool) : HDA × Option History × Sess :=
  let create_dataset := dataset.isNone
  let (hda, s1) := parentCreate s history dataset flush create_dataset
  let (history2, hda2, s2) :=
    match history with
    | some h =>
      let (h2, hh) := History.add_dataset h hda
      (some h2, hh, s1.push (Event.addToHistory h.id hda.id))
    | none => (none, hda, s1)
  let s3 := s2.push (Event.sessionAdd hda2.id)
  let s4 := if flush then s3.push Event.flush else s3
  (hda2, history2, s4)

/-- hda.set_size, modelled from the spec: stores the size of the
underlying file on the HDA and touches nothing else. -/
def HDA.set_size (env : Env) (hda : HDA) : HDA :=
  { hda with size := env.fileSize hda.file_name }

/-- hda.set_peek, modelled from the spec: recomputes the peek from the HDA
(in some instances the peek relies on the dataset id) and touches nothing
else. -/
def HDA.set_peek (env : Env) (hda : HDA) : HDA :=
  { hda with peek := env.computePeek hda }

/-- HDAManager.copy: build a fresh HDA carrying over name, info, blurb,
peek, tool_version, extension, dbkey, visible, deleted and the very same
dataset; attach it to the history when one is given; record the source in
copied_from_history_dataset_association; set the size; add to the session
and flush; only then copy the metadata; recompute the peek when the
datatype peek is not safe to copy; flush again.  Returns the copy, the
updated history and the final session state. -/
def HDAManager.copy (env : Env) (s : Sess) (_trans : Trans) (hda : HDA)
    (history : Option History) (parentId : Option Nat) : HDA × Option History × Sess :=
  let c0 : HDA :=
    { id := s.nextId, name := hda.name, info := hda.info, blurb := hda.blurb,
      peek := hda.peek, tool_version := hda.tool_version,
      extension := hda.extension, dbkey := hda.dbkey, metadata := "",
      visible := hda.visible, deleted := hda.deleted, purged := false,
      size := 0, parent_id := parentId, hid := none,
      copied_from_history_dataset_association := none,
      dataset := hda.dataset, history := none }
  let s0 := { s with nextId := s.nextId + 1 }
  let (history2, c1, s1) :=
    match history with
    | some h =>
      let (h2, hh) := History.add_dataset h c0
      (some h2, hh, s0.push (Event.addToHistory h.id c0.id))
    | none => (none, c0, s0)
  let c2 := { c1 with copied_from_history_dataset_association := some hda.id }
  let c3 := c2.set_size env
  let s2 := (s1.push (Event.sessionAdd c3.id)).push Event.flush
  let c4 := { c3 with metadata := hda.metadata }
  let s3 := s2.push (Event.metadataSet c4.id)
  let c5 := if env.copySafePeek hda.extension then c4 else c4.set_peek env
  let s4 := s3.push Event.flush
  (c5, history2, s4)

/-- Modelled from the spec: the parent DatasetAssociationManager.purge
marks the HDA deleted and purged and purges the underlying dataset,
flushing when asked; quota accounting is not its business. -/
def parentPurge (s : Sess) (hda : HDA) (flush : Bool) : HDA × Sess :=
  let hda2 := { hda with deleted := true, purged := true,
                         dataset := { hda.dataset with purged := true } }
  (hda2, if flush then s.push Event.flush else s)

/-- HDAManager.purge: delegate to the parent purge, then decrease the
total_disk_usage of the transaction user (when there is one) by the quota
amount of the purged HDA, and return the (purged) HDA itself. -/
def HDAManager.purge (env : Env) (s : Sess) (trans : Trans) (hda : HDA)
    (flush : Bool) : HDA × Sess :=
  let (hda2, s1) := parentPurge s hda flush
  let s2 :=
    match trans.user with
    | some u =>
      { s1 with diskUsage := fun uid =>
          if uid = u.id then s1.diskUsage uid - env.quotaAmount hda.dataset.id u.id
          else s1.diskUsage uid }
    | none => s1
  (hda2, s2)

/-- Python-level failures surfaced by this file: the Conflict raised by
error_if_uploading, the NameError raised by the undefined name in
text_data, and the request-parameter errors of the deserializer
validators. -/
inductive PyError where
  | conflict (msg : String)
  | nameError (name : String)
  | requestParameterInvalid (msg : String)
deriving DecidableEq, Repr

/-- HDAManager.error_if_uploading: raise Conflict while the HDA is in the
UPLOAD state, otherwise hand the very same HDA back. -/
def HDAManager.error_if_uploading (_trans : Trans) (hda : HDA) : Except PyError HDA :=
  if hda.state == DState.upload then
    Except.error (PyError.conflict "Please wait until this dataset finishes uploading")
  else
    Except.ok hda

/-- HDAManager.data_conversion_status: NO_DATA without an HDA, ERROR in the
error state, PENDING in any state other than error and ok, nothing in the
ok state. -/
def HDAManager.data_conversion_status (_trans : Trans) (hda : Option HDA) :
    Option ConversionMessage :=
  match hda with
  | none => some ConversionMessage.NO_DATA
  | some h =>
    if h.state == DState.error then some ConversionMessage.ERROR
    else if h.state != DState.ok then some ConversionMessage.PENDING
    else none

/-- HDAManager.text_data: (False, None) for a non-Text datatype or a
missing file; past those guards the source computes the truncation flag and
then evaluates the undefined name max_peek_size (the constant was declared
as MAX_PEEK_SIZE), so the read raises NameError instead of returning data. -/
def HDAManager.text_data (env : Env) (hda : HDA) (preview : Bool) :
    Except PyError (Bool × Option String) :=
  if !(env.datatypeIsText hda.extension) then
    Except.ok (false, none)
  else if !(env.fileExists hda.file_name) then
    Except.ok (false, none)
  else
    let _truncated := preview && decide (env.fileSize hda.file_name > 1000000)
    Except.error (PyError.nameError "max_peek_size")

/-- JSON-like values exchanged with the HTTP API. -/
inductive JsonValue where
  | str (s : String)
  | bool (b : Bool)
  | null
deriving DecidableEq, Repr

/-- The serializer dictionary keys this development models: the constant
table entries installed by HDASerializer.add_serializers and the remapped
attribute entries (misc_info from info, misc_blurb from blurb, file_ext
from extension, file_path from file_name, and genome_build from dbkey). -/
inductive SerKey where
  | model_class
  | history_content_type
  | hda_ldda
  | accessible
  | api_type
  | type
  | misc_info
  | misc_blurb
  | file_ext
  | file_path
  | genome_build
deriving DecidableEq, Repr

/-- The HDASerializer key table restricted to the modelled keys.  The
constant entries and the _remap_from entries are the lambdas of
add_serializers in the source; the genome_build entry is modelled from the
spec: the parent DatasetAssociationSerializer registers it remapped from
the dbkey attribute. -/
def HDASerializer.serialize_key (_trans : Trans) (hda : HDA) (key : SerKey) : JsonValue :=
  match key with
  | SerKey.model_class => JsonValue.str "HistoryDatasetAssociation"
  | SerKey.history_content_type => JsonValue.str "dataset"
  | SerKey.hda_ldda => JsonValue.str "hda"
  | SerKey.accessible => JsonValue.bool true
  | SerKey.api_type => JsonValue.str "file"
  | SerKey.type => JsonValue.str "file"
  | SerKey.misc_info => JsonValue.str hda.info
  | SerKey.misc_blurb => JsonValue.str hda.blurb
  | SerKey.file_ext => JsonValue.str hda.extension
  | SerKey.file_path => JsonValue.str hda.file_name
  | SerKey.genome_build => JsonValue.str hda.dbkey

/-- The deserializer dictionary keys installed by
HDADeserializer.add_deserializers. -/
inductive DeserKey where
  | visible
  | genome_build
  | misc_info
deriving DecidableEq, Repr

/-- Modelled from the spec: the parent deserialize_bool validator accepts
only a boolean payload value. -/
def deserialize_bool (v : JsonValue) : Except PyError Bool :=
  match v with
  | JsonValue.bool b => Except.ok b
  | _ => Except.error (PyError.requestParameterInvalid "invalid boolean")

/-- Modelled from the spec: the parent deserialize_basestring validator
accepts only a string payload value. -/
def deserialize_basestring (v : JsonValue) : Except PyError String :=
  match v with
  | JsonValue.str s => Except.ok s
  | _ => Except.error (PyError.requestParameterInvalid "invalid string")

/-- Modelled from the spec: the parent deserialize_genome_build validator
accepts a string naming the genome build. -/
def deserialize_genome_build (v : JsonValue) : Except PyError String :=
  match v with
  | JsonValue.str s => Except.ok s
  | _ => Except.error (PyError.requestParameterInvalid "invalid genome build")

/-- The HDADeserializer key table: visible goes through deserialize_bool
onto the visible attribute; genome_build is remapped through
deserialize_genome_build onto the dbkey attribute; misc_info is remapped
through deserialize_basestring onto the info attribute. -/
def HDADeserializer.deserialize_key (_trans : Trans) (hda : HDA) (key : DeserKey)
    (v : JsonValue) : Except PyError HDA :=
  match key with
  | DeserKey.visible =>
    (deserialize_bool v).map (fun b => { hda with visible := b })
  | DeserKey.genome_build =>
    (deserialize_genome_build v).map (fun s => { hda with dbkey := s })
  | DeserKey.misc_info =>
    (deserialize_basestring v).map (fun s => { hda with info := s })

/-! Concrete fixtures used by witnesses and counterexamples. -/

/-- A logged-in administrator. -/
def userAdmin : User := { id := 1, is_admin := true }

/-- A regular logged-in user. -/
def userBob : User := { id := 2, is_admin := false }

/-- A history owned by nobody (an anonymous history). -/
def histAnon : History := { id := 10, user := none, datasets := [], hid_counter := 1 }

/-- The history of the current session. -/
def histCur : History := { id := 11, user := none, datasets := [], hid_counter := 1 }

/-- The history owned by userBob. -/
def histBob : History := { id := 12, user := some userBob, datasets := [], hid_counter := 1 }

/-- An anonymous transaction whose current history is histCur. -/
def trans0 : Trans := { user := none, currentHistory := histCur }

/-- A transaction of userBob. -/
def transBob : Trans := { user := some userBob, currentHistory := histCur }

/-- A dataset in the ok state backed by the file f.txt. -/
def ds0 : Dataset := { id := 100, state := DState.ok, purged := false, file_name := "f.txt" }

/-- A dataset still uploading. -/
def dsUpload : Dataset := { id := 101, state := DState.upload, purged := false, file_name := "g.txt" }

/-- A fully populated HDA sitting in the anonymous history. -/
def baseHda : HDA :=
  { id := 500, name := "data 1", info := "some info", blurb := "1 line",
    peek := "original peek", tool_version := "1.0", extension := "txt",
    dbkey := "hg19", metadata := "meta", visible := true, deleted := false,
    purged := false, size := 0, parent_id := none, hid := some 1,
    copied_from_history_dataset_association := none,
    dataset := ds0, history := some histAnon }

/-- The baseHda moved into the history of userBob. -/
def hdaBob : HDA := { baseHda with history := some histBob }

/-- The baseHda while its dataset is uploading. -/
def hdaUploading : HDA := { baseHda with dataset := dsUpload }

/-- The baseHda with a non-text extension. -/
def hdaBinary : HDA := { baseHda with extension := "bam" }

/-- A concrete environment: the inherited accessibility check denies, the
quota amount is 7, only the txt extension is a Text datatype with a
copy-safe peek, only f.txt exists and files have size 5. -/
def env0 : Env :=
  { inheritedAccessible := fun _ _ _ => false,
    quotaAmount := fun _ _ => 7,
    datatypeIsText := fun e => e == "txt",
    copySafePeek := fun _ => true,
    computePeek := fun _ => "recomputed",
    fileExists := fun n => n == "f.txt",
    fileSize := fun _ => 5 }

/-- The environment env0 with no copy-safe peek for any datatype. -/
def envNoSafePeek : Env := { env0 with copySafePeek := fun _ => false }

/-- The starting session state for the fixtures. -/
def sess0 : Sess :=
  { nextId := 1000, nextDatasetId := 2000, log := [], diskUsage := fun _ => 100 }

/-! Claims. -/

/-- Claim C1, counterexample: for the anonymous user (None) and an HDA
whose history is an anonymous history different from the current session
history, is_owner returns True even though the history does not equal
trans.get_history(), contradicting the claimed if-and-only-if for
anonymous users. -/
theorem is_owner_anonymous_counterexample :
    UserManager.is_anonymous (none : Option User) = true
    ∧ baseHda.history = some histAnon
    ∧ histAnon ≠ trans0.get_history
    ∧ HDAManager.is_owner trans0 baseHda none = true := by
  decide

/-- Claim C1 (amended): for an HDA whose related history is h, a non-admin
logged-in user owns the HDA exactly when h.user is that user; an admin
owns it regardless; an anonymous user owns it exactly when h equals
trans.get_history() or h has no owning user. -/
theorem is_owner_spec (trans : Trans) (hda : HDA) (h : History) (u : Option User)
    (hh : hda.history = some h) :
    (∀ usr : User, u = some usr → usr.is_admin = false →
        HDAManager.is_owner trans hda u = (h.user == some usr))
    ∧ (∀ usr : User, u = some usr → usr.is_admin = true →
        HDAManager.is_owner trans hda u = true)
    ∧ (u = none →
        (HDAManager.is_owner trans hda u = true ↔ (h = trans.get_history ∨ h.user = none))) := by
  refine ⟨?_, ?_, ?_⟩
  · intro usr hu hadm
    subst hu
    simp [HDAManager.is_owner, UserManager.is_admin, UserManager.is_anonymous, hh, hadm]
  · intro usr hu hadm
    subst hu
    simp [HDAManager.is_owner, UserManager.is_admin, hadm]
  · intro hu
    subst hu
    by_cases hc : h = trans.currentHistory <;>
      simp [HDAManager.is_owner, UserManager.is_admin, UserManager.is_anonymous,
            Trans.get_history, hh, hc]

/-- Claim C1, witness: the amended theorem applied to userBob and an HDA
living in the history owned by userBob. -/
theorem is_owner_spec_witness :
    HDAManager.is_owner transBob hdaBob (some userBob) = (histBob.user == some userBob) := by
  have h := is_owner_spec transBob hdaBob histBob (some userBob) rfl
  exact h.1 userBob rfl rfl

/-- Claim C4: whenever is_owner returns True, is_accessible returns True;
whenever is_owner returns False, is_accessible returns exactly the result
of the inherited accessibility check. -/
theorem is_accessible_spec (env : Env) (trans : Trans) (hda : HDA) (u : Option User) :
    (HDAManager.is_owner trans hda u = true →
        HDAManager.is_accessible env trans hda u = true)
    ∧ (HDAManager.is_owner trans hda u = false →
        HDAManager.is_accessible env trans hda u = env.inheritedAccessible trans hda u) := by
  constructor <;> intro h <;> simp [HDAManager.is_accessible, h]

/-- Claim C4, witness: the theorem applied to the anonymous owner of the
baseHda fixture. -/
theorem is_accessible_spec_witness :
    HDAManager.is_accessible env0 trans0 baseHda none = true :=
  (is_accessible_spec env0 trans0 baseHda none).1 (by decide)

/-- Claim C7: the table-driven serializers yield the constant values
HistoryDatasetAssociation for model_class, dataset for
history_content_type, hda for hda_ldda, True for accessible, file for
api_type and file for type, for every transaction and HDA. -/
theorem serialize_constant_keys (trans : Trans) (hda : HDA) :
    HDASerializer.serialize_key trans hda SerKey.model_class
        = JsonValue.str "HistoryDatasetAssociation"
    ∧ HDASerializer.serialize_key trans hda SerKey.history_content_type
        = JsonValue.str "dataset"
    ∧ HDASerializer.serialize_key trans hda SerKey.hda_ldda = JsonValue.str "hda"
    ∧ HDASerializer.serialize_key trans hda SerKey.accessible = JsonValue.bool true
    ∧ HDASerializer.serialize_key trans hda SerKey.api_type = JsonValue.str "file"
    ∧ HDASerializer.serialize_key trans hda SerKey.type = JsonValue.str "file" :=
  ⟨rfl, rfl, rfl, rfl, rfl, rfl⟩

/-- Claim C5: misc_info serializes the info attribute and genome_build
serializes the dbkey attribute; deserializing misc_info writes info and
deserializing genome_build writes dbkey; hence deserializing the payload
built from a serialized misc_info value restores the info attribute to
that value. -/
theorem serializer_deserializer_remap (trans : Trans) (hda hdaTarget : HDA) (v : String) :
    HDASerializer.serialize_key trans hda SerKey.misc_info = JsonValue.str hda.info
    ∧ HDASerializer.serialize_key trans hda SerKey.genome_build = JsonValue.str hda.dbkey
    ∧ HDADeserializer.deserialize_key trans hda DeserKey.misc_info (JsonValue.str v)
        = Except.ok { hda with info := v }
    ∧ HDADeserializer.deserialize_key trans hda DeserKey.genome_build (JsonValue.str v)
        = Except.ok { hda with dbkey := v }
    ∧ HDADeserializer.deserialize_key trans hdaTarget DeserKey.misc_info
          (HDASerializer.serialize_key trans hda SerKey.misc_info)
        = Except.ok { hdaTarget with info := hda.info } :=
  ⟨rfl, rfl, rfl, rfl, rfl⟩

/-- Claim C9: error_if_uploading raises Conflict exactly when the HDA is
in the UPLOAD state and otherwise returns the very same HDA, touching no
field either way. -/
theorem error_if_uploading_spec (trans : Trans) (hda : HDA) :
    (hda.state = DState.upload →
        HDAManager.error_if_uploading trans hda =
          Except.error (PyError.conflict "Please wait until this dataset finishes uploading"))
    ∧ (hda.state ≠ DState.upload →
        HDAManager.error_if_uploading trans hda = Except.ok hda) := by
  constructor <;> intro h <;>
    simp [HDAManager.error_if_uploading, h]

/-- Claim C9, witness: the theorem applied to an HDA whose dataset is
still uploading. -/
theorem error_if_uploading_spec_witness :
    HDAManager.error_if_uploading trans0 hdaUploading =
      Except.error (PyError.conflict "Please wait until this dataset finishes uploading") :=
  (error_if_uploading_spec trans0 hdaUploading).1 rfl

/-- Claim C10: data_conversion_status returns NO_DATA for no HDA, ERROR
in the error state, PENDING in any state that is neither error nor ok,
and nothing in the ok state; being a function of its inputs, exactly one
of the four outcomes arises and no state is mutated. -/
theorem data_conversion_status_spec (trans : Trans) (hda : Option HDA) :
    (hda = none →
        HDAManager.data_conversion_status trans hda = some ConversionMessage.NO_DATA)
    ∧ (∀ h, hda = some h → h.state = DState.error →
        HDAManager.data_conversion_status trans hda = some ConversionMessage.ERROR)
    ∧ (∀ h, hda = some h → h.state ≠ DState.error → h.state ≠ DState.ok →
        HDAManager.data_conversion_status trans hda = some ConversionMessage.PENDING)
    ∧ (∀ h, hda = some h → h.state = DState.ok →
        HDAManager.data_conversion_status trans hda = none) := by
  refine ⟨?_, ?_, ?_, ?_⟩
  · intro h
    subst h
    rfl
  · intro h hh hs
    subst hh
    simp [HDAManager.data_conversion_status, hs]
  · intro h hh hs1 hs2
    subst hh
    simp [HDAManager.data_conversion_status, hs1, hs2]
  · intro h hh hs
    subst hh
    simp [HDAManager.data_conversion_status, hs]

/-- Claim C10, witness: the theorem applied to a missing HDA. -/
theorem data_conversion_status_spec_witness :
    HDAManager.data_conversion_status trans0 none = some ConversionMessage.NO_DATA :=
  (data_conversion_status_spec trans0 none).1 rfl

/-- Claim C2: after purge, the total_disk_usage of the transaction user
(when there is one) has decreased by exactly the quota amount of the
purged HDA for that user while every other user is untouched; without a
transaction user every total_disk_usage is unchanged; and the returned
HDA is the one given (same id). -/
theorem purge_spec (env : Env) (s : Sess) (trans : Trans) (hda : HDA)
    (flush : Bool) (uid : Nat) :
    (HDAManager.purge env s trans hda flush).2.diskUsage uid =
      (match trans.user with
       | some u =>
         if uid = u.id then s.diskUsage uid - env.quotaAmount hda.dataset.id u.id
         else s.diskUsage uid
       | none => s.diskUsage uid)
    ∧ (HDAManager.purge env s trans hda flush).1.id = hda.id := by
  rcases htu : trans.user with _ | u <;> cases flush <;>
    simp [HDAManager.purge, parentPurge, Sess.push, htu]

/-- Claim C8: create passes create_dataset to the parent create exactly
when no dataset is given; when a history is given the new HDA is attached
to exactly that history via add_dataset (the updated history records the
new id and the new HDA points back at it); the new HDA is added to the
session; and a flush happens exactly when the flush argument is true. -/
theorem create_spec (s : Sess) (trans : Trans) (history : Option History)
    (dataset : Option Dataset) (flush : Bool) :
    let r := HDAManager.create s trans history dataset flush
    (Event.parentCreate dataset.isNone ∈ newEvents s r.2.2)
    ∧ (∀ h, history = some h →
        r.2.1 = some { h with datasets := h.datasets ++ [r.1.id],
                              hid_counter := h.hid_counter + 1 }
        ∧ r.1.history = r.2.1
        ∧ Event.addToHistory h.id r.1.id ∈ newEvents s r.2.2)
    ∧ (history = none → r.2.1 = none)
    ∧ Event.sessionAdd r.1.id ∈ newEvents s r.2.2
    ∧ (Event.flush ∈ newEvents s r.2.2 ↔ flush = true) := by
  rcases history with _ | h <;> rcases dataset with _ | d <;> cases flush <;>
    simp [HDAManager.create, parentCreate, History.add_dataset, Sess.push, newEvents]

/-- Claim C8, witness: the theorem applied to a create call with the
current history, no dataset and flush on. -/
theorem create_spec_witness :
    (HDAManager.create sess0 trans0 (some histCur) none true).2.1 =
      some { histCur with
               datasets := histCur.datasets ++
                 [(HDAManager.create sess0 trans0 (some histCur) none true).1.id],
               hid_counter := histCur.hid_counter + 1 } := by
  have h := create_spec sess0 trans0 (some histCur) none true
  exact (h.2.1 histCur rfl).1

/-- Claim C3, counterexample: with a datatype whose peek is not safe to
copy, the copy recomputes its peek, so the peek of the copy differs from
the peek of the source, contradicting the claimed equality of the peek
fields. -/
theorem copy_peek_counterexample :
    (HDAManager.copy envNoSafePeek sess0 trans0 baseHda none none).1.peek
      ≠ baseHda.peek := by
  decide

/-- Claim C3 (amended): for a fresh session id, copy returns a new HDA
(different id) whose name, info, blurb, tool_version, extension, dbkey,
visible and deleted fields equal those of the source, which shares the
same dataset object, records the source in
copied_from_history_dataset_association, carries the metadata of the
source copied after the first flush of the new record (visible in the
event order), and whose peek equals that of the source whenever the
datatype peek is safe to copy (otherwise the peek is recomputed). -/
theorem copy_spec (env : Env) (s : Sess) (trans : Trans) (hda : HDA)
    (history : Option History) (parentId : Option Nat)
    (hfresh : hda.id ≠ s.nextId) :
    let r := HDAManager.copy env s trans hda history parentId
    r.1.id ≠ hda.id
    ∧ r.1.name = hda.name ∧ r.1.info = hda.info ∧ r.1.blurb = hda.blurb
    ∧ r.1.tool_version = hda.tool_version ∧ r.1.extension = hda.extension
    ∧ r.1.dbkey = hda.dbkey ∧ r.1.visible = hda.visible
    ∧ r.1.deleted = hda.deleted
    ∧ r.1.dataset = hda.dataset
    ∧ r.1.copied_from_history_dataset_association = some hda.id
    ∧ r.1.metadata = hda.metadata
    ∧ (env.copySafePeek hda.extension = true → r.1.peek = hda.peek)
    ∧ newEvents s r.2.2 =
        (match history with
         | some h => [Event.addToHistory h.id s.nextId]
         | none => []) ++
        [Event.sessionAdd s.nextId, Event.flush, Event.metadataSet s.nextId,
         Event.flush] := by
  rcases history with _ | h <;>
    rcases hsp : env.copySafePeek hda.extension <;>
      simp [HDAManager.copy, HDA.set_size, HDA.set_peek, History.add_dataset,
            Sess.push, newEvents, hsp, Ne.symm hfresh]

/-- Claim C3, witness: the amended theorem applied to the baseHda fixture
with a copy-safe peek; the name of the copy equals the name of the
source. -/
theorem copy_spec_witness :
    (HDAManager.copy env0 sess0 trans0 baseHda none none).1.name = baseHda.name := by
  have h := copy_spec env0 sess0 trans0 baseHda none none (by decide)
  exact h.2.1

/-- Claim C6: evaluating text_data on the code as written, a non-Text
datatype yields (False, None) as claimed, but a Text datatype whose file
exists reaches the read call, which evaluates the undefined name
max_peek_size (the constant was declared as MAX_PEEK_SIZE) and raises
NameError instead of returning the file data. -/
theorem text_data_bug :
    HDAManager.text_data env0 hdaBinary true = Except.ok (false, none)
    ∧ HDAManager.text_data env0 baseHda true
        = Except.error (PyError.nameError "max_peek_size") :=
  ⟨rfl, rfl⟩

end GalaxyHdas
